import Mathlib

/-!
Verification development for the GT-511C fingerprint sensor driver
(`fingerprint_gt511.c` / `fingerprint_gt511.h`).

The driver is shallowly embedded.  Machine integers are `Nat` with explicit
`% 2^w` where overflow can matter.  The external collaborators
(`GT511_SendMessage`, `GT511_ReceiveMessage`, `GT511_CheckTimeout`, ...) are
modelled by an environment `Env` consulted through explicit counters
(`St`), and all observable interactions (commands sent on the wire, user
callbacks, timeout arming) are collected in an event trace.
`GT511_Error_t` is embedded as its numeric value (`Nat`), which is exactly
the C enumeration semantics: casting a `uint32_t` NACK parameter to the
enum preserves the number, recognized or not.
-/

namespace GT511

/-- Split a value into its two little-endian bytes (a `uint16_t` field as
laid out in memory on the little-endian Cortex-M target). -/
def toBytes2 (v : Nat) : List Nat := [v % 256, v / 256 % 256]

/-- Split a value into its four little-endian bytes (a `uint32_t` field). -/
def toBytes4 (v : Nat) : List Nat :=
  [v % 256, v / 256 % 256, v / 65536 % 256, v / 16777216 % 256]

/-- `GT511_Packet_t`: start1, start2, id (u16), parameter (u32),
command (u16), checksum (u16).  `sizeof(GT511_Packet_t) = 12`. -/
structure Packet where
  start1 : Nat
  start2 : Nat
  id : Nat
  parameter : Nat
  command : Nat
  checksum : Nat
deriving DecidableEq, Repr

/-- The first `sizeof(GT511_Packet_t) - 2 = 10` bytes of a packet, i.e.
everything except the checksum field, in memory (little-endian) order.
This is the byte range `Checksum((uint8_t *)p, sizeof(GT511_Packet_t) - 2)`
runs over. -/
def packetPrefixBytes (p : Packet) : List Nat :=
  [p.start1, p.start2] ++ toBytes2 p.id ++ toBytes4 p.parameter ++ toBytes2 p.command

/-- `Checksum`: sums the bytes into a `uint32_t` accumulator and returns it
as `uint16_t`.  Since `2^16` divides `2^32`, the double truncation equals a
single `% 2^16`. -/
def Checksum (bytes : List Nat) : Nat := bytes.sum % 65536

/-- The command packet built by `IssueCommand` (lines 308-314): start bytes
0x55/0xAA, id 1, the parameter, the command code, and the 16-bit checksum
of the 10 preceding bytes.  Field values are truncated to their C widths. -/
def IssueCommandPacket (command parameter : Nat) : Packet :=
  ⟨0x55, 0xAA, 1, parameter % 4294967296, command % 65536,
   Checksum (packetPrefixBytes
     ⟨0x55, 0xAA, 1, parameter % 4294967296, command % 65536, 0⟩)⟩

/-- `IsValidResponse` (lines 252-282): checksum over the first 10 bytes must
match the checksum field, start bytes must be 0x55/0xAA, id must be 1, and
the code field must be ACK (0x30) or NACK (0x31). -/
def IsValidResponse (p : Packet) : Bool :=
  (Checksum (packetPrefixBytes p) == p.checksum) &&
  (p.start1 == 0x55) && (p.start2 == 0xAA) &&
  (p.id == 1) &&
  (p.command == 0x30 || p.command == 0x31)

/-- Outcome of one send/receive exchange as seen by the driver: whether
`GT511_SendMessage` reported success, how many bytes `GT511_ReceiveMessage`
returned, and the response packet contents it deposited. -/
structure Transport where
  sendOk : Bool
  recvCount : Nat
  resp : Packet

/-- The external world.  `transact n c p` is the transport behaviour of the
`n`-th `IssueCommand` transaction when the driver sends command code `c`
with parameter `p`; `timeout n m` is the result of the `n`-th
`GT511_CheckTimeout(m)` poll; `recvRaw n` is the `(count, bytes)` outcome
of the extra raw `GT511_ReceiveMessage` performed by `GT511_Open` when `n`
transactions have completed. -/
structure Env where
  transact : Nat → Nat → Nat → Transport
  timeout : Nat → Nat → Bool
  recvRaw : Nat → Nat × List Nat

/-- Driver-visible interaction counters: `t` transactions performed so far,
`c` timeout polls performed so far. -/
structure St where
  t : Nat
  c : Nat
deriving DecidableEq, Repr

/-- Observable interactions: a command sent on the wire (code and outgoing
parameter), a `GT511_UserCallback(mode, ui)` notification, and a
`GT511_SetTimeout(mode)` arming call. -/
inductive Event where
  | cmd : Nat → Nat → Event
  | cb : Nat → Nat → Event
  | armTo : Nat → Event
deriving DecidableEq, Repr

/-- Result of `IssueCommand`: returned error code, value written back
through `pParameter` (if any), updated counters, and emitted events. -/
structure Tx where
  err : Nat
  wb : Option Nat
  st : St
  tr : List Event
deriving DecidableEq, Repr

/-- Result of a driver call with no out-parameter. -/
structure Out where
  err : Nat
  st : St
  tr : List Event
deriving DecidableEq, Repr

/-- Result of a driver call with an out-parameter of type `α`. -/
structure OutV (α : Type) where
  err : Nat
  val : α
  st : St
  tr : List Event
deriving DecidableEq, Repr

/-- Error code returned by `IssueCommand` (lines 317-343): send failure,
short/long receive, and invalid response all yield
`GT511_ERR_OTHER_ERROR` (0xFFFF); a NACK yields the response parameter
cast to `GT511_Error_t` (numerically the identity); an ACK yields
`GT511_ERR_NONE` (0). -/
def issueErr (k : Transport) : Nat :=
  if ¬k.sendOk then 0xFFFF
  else if k.recvCount ≠ 12 then 0xFFFF
  else if ¬IsValidResponse k.resp then 0xFFFF
  else if k.resp.command = 0x31 then k.resp.parameter
  else 0

/-- Write-back through `pParameter` (lines 349-352): only on the ACK path,
and only when the caller supplied a pointer. -/
def issueWb (k : Transport) (pParameter : Option Nat) : Option Nat :=
  if ¬k.sendOk then none
  else if k.recvCount ≠ 12 then none
  else if ¬IsValidResponse k.resp then none
  else if k.resp.command = 0x31 then none
  else pParameter.map fun _ => k.resp.parameter

/-- `IssueCommand` (lines 304-356).  The command parameter is
`*pParameter` or 0 when the pointer is NULL (`Option.getD`); exactly one
transaction is consumed and one wire command emitted regardless of
outcome. -/
def IssueCommand (env : Env) (st : St) (command : Nat) (pParameter : Option Nat) : Tx :=
  let k := env.transact st.t command (pParameter.getD 0)
  ⟨issueErr k, issueWb k pParameter, ⟨st.t + 1, st.c⟩, [.cmd command (pParameter.getD 0)]⟩

/-- `GT511_CmosLed` (lines 592-598): command 0x12, parameter 1 for on and
0 for off; the response write-back into the local `parm` is discarded. -/
def GT511_CmosLed (env : Env) (st : St) (turnOn : Bool) : Out :=
  let x := IssueCommand env st 0x12 (some (if turnOn then 1 else 0))
  ⟨x.err, x.st, x.tr⟩

/-- `GT511_IsPressFinger` (lines 611-626): command 0x26 with parameter 0;
`*pIsPressed = !parm` where `parm` is the response parameter on ACK and
stays 0 otherwise, so the flag is true exactly when `parm = 0`. -/
def GT511_IsPressFinger (env : Env) (st : St) : OutV Bool :=
  let x := IssueCommand env st 0x26 (some 0)
  ⟨x.err, x.wb.getD 0 == 0, x.st, x.tr⟩

/-- `GT511_CaptureFinger` (lines 638-644): command 0x60, parameter 1 for
high quality, 0 otherwise. -/
def GT511_CaptureFinger (env : Env) (st : St) (highQuality : Bool) : Out :=
  let x := IssueCommand env st 0x60 (some (if highQuality then 1 else 0))
  ⟨x.err, x.st, x.tr⟩

/-- `GT511_Identify` (lines 657-670): command 0x51 with parameter 0;
`*pId` receives the (updated) `parm`, which is the response parameter on
ACK and 0 otherwise. -/
def GT511_Identify (env : Env) (st : St) : OutV Nat :=
  let x := IssueCommand env st 0x51 (some 0)
  ⟨x.err, x.wb.getD 0, x.st, x.tr⟩

/-- `GT511_Verify` (lines 828-833): command 0x50 with the target id. -/
def GT511_Verify (env : Env) (st : St) (id : Nat) : Out :=
  let x := IssueCommand env st 0x50 (some id)
  ⟨x.err, x.st, x.tr⟩

/-- `GT511_EnrollStart` (lines 687-692): command 0x22 with the slot id. -/
def GT511_EnrollStart (env : Env) (st : St) (id : Nat) : Out :=
  let x := IssueCommand env st 0x22 (some id)
  ⟨x.err, x.st, x.tr⟩

/-- `GT511_Enroll1` (lines 704-709): command 0x23, NULL parameter. -/
def GT511_Enroll1 (env : Env) (st : St) : Out :=
  let x := IssueCommand env st 0x23 none
  ⟨x.err, x.st, x.tr⟩

/-- `GT511_Enroll2` (lines 721-726): command 0x24, NULL parameter. -/
def GT511_Enroll2 (env : Env) (st : St) : Out :=
  let x := IssueCommand env st 0x24 none
  ⟨x.err, x.st, x.tr⟩

/-- `GT511_Enroll3` (lines 738-743): command 0x25, NULL parameter. -/
def GT511_Enroll3 (env : Env) (st : St) : Out :=
  let x := IssueCommand env st 0x25 none
  ⟨x.err, x.st, x.tr⟩

/-- `GT511_CheckEnrolled` (lines 810-815): command 0x21 with the slot id. -/
def GT511_CheckEnrolled (env : Env) (st : St) (id : Nat) : Out :=
  let x := IssueCommand env st 0x21 (some id)
  ⟨x.err, x.st, x.tr⟩

/-- `GT511_Info_t`: firmware version (u32), iso area max size (u32),
16-byte serial number. -/
structure GT511_Info where
  firmwareVersion : Nat
  isoAreaMaxSize : Nat
  serialNumber : List Nat
deriving DecidableEq, Repr

/-- Little-endian 32-bit value stored at byte offset `i` of a buffer. -/
def le32 (bytes : List Nat) (i : Nat) : Nat :=
  bytes.getD i 0 + 256 * bytes.getD (i + 1) 0 +
  65536 * bytes.getD (i + 2) 0 + 16777216 * bytes.getD (i + 3) 0

/-- `GT511_Open` (lines 537-571): command 0x01 with parameter 1 when info
is requested, else 0.  When info is requested and the command succeeded,
one raw receive of `sizeof(GT511_DataPacket_t) + sizeof(GT511_Info_t) =
6 + 24 = 30` bytes follows; any other byte count is
`GT511_ERR_OTHER_ERROR`.  On the exact count the payload (which starts at
byte offset 4, right after start bytes and id) is copied field-wise into
the caller's `GT511_Info_t`; no checksum, start-byte, or id check is made
on this frame. -/
def GT511_Open (env : Env) (st : St) (wantInfo : Bool) : OutV (Option GT511_Info) :=
  let x := IssueCommand env st 0x01 (some (if wantInfo then 1 else 0))
  if x.err ≠ 0 then ⟨x.err, none, x.st, x.tr⟩
  else if wantInfo then
    let d := env.recvRaw x.st.t
    if d.1 ≠ 30 then ⟨0xFFFF, none, x.st, x.tr⟩
    else ⟨0, some ⟨le32 d.2 4, le32 d.2 8, (d.2.drop 12).take 16⟩, x.st, x.tr⟩
  else ⟨0, none, x.st, x.tr⟩

/-!
Mode and UI constants used below, from `GT511_Mode_t` and
`GT511_UserInfo_t` (header lines 112-133), by enumeration order:
modes IDLE 0, IDENTIFY 1, VERIFY 2, CAPTURE 3, ENROLL 4;
ui PRESS 0, RELEASE 1, TIMEOUT 2, ACCEPT 3, REJECT 4, ERROR 5.
-/

/-- Shared body of `WaitFingerPress` / `WaitFingerRelease` (lines 377-466),
which are textual twins differing only in the prompt event and the exit
condition on the pressed flag (`target`).  Each loop turn polls
`GT511_CheckTimeout(mode)`; on expiry it notifies TIMEOUT and returns
`GT511_ERR_OTHER_ERROR` (0xFFFF); otherwise it queries
`GT511_IsPressFinger`, and on a query error forces the LED off, notifies
ERROR, and propagates the error; reaching the target pressed-state exits
with the query's error, which is 0.  `fuel` bounds the number of loop
turns; `none` means the bound was exhausted (the C loop still running). -/
def WaitLoop (env : Env) (mode : Nat) (target : Bool) : Nat → St → Option Out
  | 0, _ => none
  | fuel + 1, st =>
    if env.timeout st.c mode then
      some ⟨0xFFFF, ⟨st.t, st.c + 1⟩, [.cb mode 2]⟩
    else
      let q := GT511_IsPressFinger env ⟨st.t, st.c + 1⟩
      if q.err ≠ 0 then
        let f := GT511_CmosLed env q.st false
        some ⟨q.err, f.st, q.tr ++ f.tr ++ [.cb mode 5]⟩
      else if q.val == target then
        some ⟨0, q.st, q.tr⟩
      else
        match WaitLoop env mode target fuel q.st with
        | none => none
        | some o => some ⟨o.err, o.st, q.tr ++ o.tr⟩

/-- `WaitFingerPress` (lines 377-411): notify PRESS, arm the timeout, then
loop until the finger is pressed. -/
def WaitFingerPress (env : Env) (mode fuel : Nat) (st : St) : Option Out :=
  match WaitLoop env mode true fuel st with
  | none => none
  | some o => some ⟨o.err, o.st, [.cb mode 0, .armTo mode] ++ o.tr⟩

/-- `WaitFingerRelease` (lines 432-466): notify RELEASE, arm the timeout,
then loop until the finger is released. -/
def WaitFingerRelease (env : Env) (mode fuel : Nat) (st : St) : Option Out :=
  match WaitLoop env mode false fuel st with
  | none => none
  | some o => some ⟨o.err, o.st, [.cb mode 1, .armTo mode] ++ o.tr⟩

/-- Scan loop of `GT511_FindAvailable` (lines 858-884), from slot `i` with
`rem` slots left: check-enrolled result `GT511_ERR_IS_NOT_USED` (0x1004)
stores the index and returns `GT511_ERR_NONE`; any other non-zero result
is returned as-is; `GT511_ERR_NONE` moves to the next slot; exhaustion
yields `GT511_ERR_INVALID_POS` (0x1003). -/
def FindAvailLoop (env : Env) : Nat → Nat → St → OutV (Option Nat)
  | _, 0, st => ⟨0x1003, none, st, []⟩
  | i, rem + 1, st =>
    let x := GT511_CheckEnrolled env st i
    if x.err = 0x1004 then ⟨0, some i, x.st, x.tr⟩
    else if x.err ≠ 0 then ⟨x.err, none, x.st, x.tr⟩
    else
      let o := FindAvailLoop env (i + 1) rem x.st
      ⟨o.err, o.val, o.st, x.tr ++ o.tr⟩

/-- `GT511_FindAvailable` (lines 846-888): NULL `pId` is
`GT511_ERR_OTHER_ERROR`; otherwise scan slots 0..GT511_NUM_SLOTS-1
(GT511_NUM_SLOTS = 20).  `val` is the value stored through `pId`, if
any. -/
def GT511_FindAvailable (env : Env) (st : St) (pGiven : Bool) : OutV (Option Nat) :=
  if pGiven then FindAvailLoop env 0 20 st else ⟨0xFFFF, none, st, []⟩

/-- `GT511_RunIdentify` (lines 922-994).  `pGiven` is whether the caller's
`pId` is non-NULL; `val` is the value stored through it, if any (written
right after the identify command succeeds, before the release wait). -/
def GT511_RunIdentify (env : Env) (fuel : Nat) (st : St) (pGiven : Bool) :
    Option (OutV (Option Nat)) :=
  let L := GT511_CmosLed env st true
  if L.err ≠ 0 then
    let f := GT511_CmosLed env L.st false
    some ⟨L.err, none, f.st, L.tr ++ f.tr⟩
  else match WaitFingerPress env 1 fuel L.st with
  | none => none
  | some w =>
    if w.err ≠ 0 then
      let f := GT511_CmosLed env w.st false
      some ⟨w.err, none, f.st, L.tr ++ w.tr ++ f.tr⟩
    else
      let C := GT511_CaptureFinger env w.st false
      if C.err ≠ 0 then
        let f := GT511_CmosLed env C.st false
        some ⟨C.err, none, f.st, L.tr ++ w.tr ++ C.tr ++ f.tr ++ [.cb 1 5]⟩
      else
        let I := GT511_Identify env C.st
        if I.err ≠ 0 then
          let f := GT511_CmosLed env I.st false
          some ⟨I.err, none, f.st, L.tr ++ w.tr ++ C.tr ++ I.tr ++ f.tr ++ [.cb 1 4]⟩
        else
          let pid : Option Nat := if pGiven then some I.val else none
          match WaitFingerRelease env 1 fuel I.st with
          | none => none
          | some r =>
            if r.err ≠ 0 then
              let f := GT511_CmosLed env r.st false
              some ⟨r.err, pid, f.st, L.tr ++ w.tr ++ C.tr ++ I.tr ++ r.tr ++ f.tr⟩
            else
              let f := GT511_CmosLed env r.st false
              some ⟨r.err, pid, f.st,
                L.tr ++ w.tr ++ C.tr ++ I.tr ++ r.tr ++ f.tr ++ [.cb 1 3]⟩

/-- `GT511_RunVerify` (lines 1028-1093): same shape as identify with the
verify command against the caller's id, in mode VERIFY (2). -/
def GT511_RunVerify (env : Env) (fuel : Nat) (st : St) (id : Nat) : Option Out :=
  let L := GT511_CmosLed env st true
  if L.err ≠ 0 then
    let f := GT511_CmosLed env L.st false
    some ⟨L.err, f.st, L.tr ++ f.tr⟩
  else match WaitFingerPress env 2 fuel L.st with
  | none => none
  | some w =>
    if w.err ≠ 0 then
      let f := GT511_CmosLed env w.st false
      some ⟨w.err, f.st, L.tr ++ w.tr ++ f.tr⟩
    else
      let C := GT511_CaptureFinger env w.st false
      if C.err ≠ 0 then
        let f := GT511_CmosLed env C.st false
        some ⟨C.err, f.st, L.tr ++ w.tr ++ C.tr ++ f.tr ++ [.cb 2 5]⟩
      else
        let V := GT511_Verify env C.st id
        if V.err ≠ 0 then
          let f := GT511_CmosLed env V.st false
          some ⟨V.err, f.st, L.tr ++ w.tr ++ C.tr ++ V.tr ++ f.tr ++ [.cb 2 4]⟩
        else
          match WaitFingerRelease env 2 fuel V.st with
          | none => none
          | some r =>
            if r.err ≠ 0 then
              let f := GT511_CmosLed env r.st false
              some ⟨r.err, f.st, L.tr ++ w.tr ++ C.tr ++ V.tr ++ r.tr ++ f.tr⟩
            else
              let f := GT511_CmosLed env r.st false
              some ⟨r.err, f.st,
                L.tr ++ w.tr ++ C.tr ++ V.tr ++ r.tr ++ f.tr ++ [.cb 2 3]⟩

/-- The step-dependent enroll command of `GT511_RunEnroll` (lines
1185-1198): step 0 issues Enroll1, step 1 issues Enroll2, any later step
issues Enroll3. -/
def EnrollStepCmd (env : Env) (st : St) (step : Nat) : Out :=
  if step = 0 then GT511_Enroll1 env st
  else if step = 1 then GT511_Enroll2 env st
  else GT511_Enroll3 env st

/-- One pass of `GT511_RunEnroll`'s 3-step loop (lines 1152-1220) starting
at step index `step` with `rem` steps left, in mode ENROLL (4).  Per step:
LED on; wait for press; capture (high quality); the step-specific enroll
command; wait for release; LED off.  Failure exits mirror the C early
returns, including the REJECT-before-LED-off ordering on an
enroll-command failure. -/
def EnrollSteps (env : Env) (fuel : Nat) : Nat → Nat → St → Option Out
  | _, 0, st => some ⟨0, st, []⟩
  | step, rem + 1, st =>
    let L := GT511_CmosLed env st true
    if L.err ≠ 0 then
      let f := GT511_CmosLed env L.st false
      some ⟨L.err, f.st, L.tr ++ f.tr⟩
    else match WaitFingerPress env 4 fuel L.st with
    | none => none
    | some w =>
      if w.err ≠ 0 then
        let f := GT511_CmosLed env w.st false
        some ⟨w.err, f.st, L.tr ++ w.tr ++ f.tr⟩
      else
        let C := GT511_CaptureFinger env w.st true
        if C.err ≠ 0 then
          let f := GT511_CmosLed env C.st false
          some ⟨C.err, f.st, L.tr ++ w.tr ++ C.tr ++ f.tr ++ [.cb 4 5]⟩
        else
          let E := EnrollStepCmd env C.st step
          if E.err ≠ 0 then
            let f := GT511_CmosLed env E.st false
            some ⟨E.err, f.st, L.tr ++ w.tr ++ C.tr ++ E.tr ++ [.cb 4 4] ++ f.tr⟩
          else
            match WaitFingerRelease env 4 fuel E.st with
            | none => none
            | some r =>
              if r.err ≠ 0 then
                let f := GT511_CmosLed env r.st false
                some ⟨r.err, f.st, L.tr ++ w.tr ++ C.tr ++ E.tr ++ r.tr ++ f.tr⟩
              else
                let f := GT511_CmosLed env r.st false
                match EnrollSteps env fuel (step + 1) rem f.st with
                | none => none
                | some o =>
                  some ⟨o.err, o.st,
                    L.tr ++ w.tr ++ C.tr ++ E.tr ++ r.tr ++ f.tr ++ o.tr⟩

/-- `GT511_RunEnroll` (lines 1126-1227): NULL `pId` is rejected; a slot is
allocated with `GT511_FindAvailable` (notifying ERROR on failure), enroll
is started for it, the 3-step loop runs, and on full success ACCEPT is
notified and `GT511_ERR_NONE` returned.  `val` is the content written
through `pId` (only `GT511_FindAvailable` ever writes it). -/
def GT511_RunEnroll (env : Env) (fuel : Nat) (st : St) (pGiven : Bool) :
    Option (OutV (Option Nat)) :=
  if ¬pGiven then some ⟨0xFFFF, none, st, []⟩
  else
    let A := GT511_FindAvailable env st true
    if A.err ≠ 0 then some ⟨A.err, A.val, A.st, A.tr ++ [.cb 4 5]⟩
    else
      let S := GT511_EnrollStart env A.st (A.val.getD 0)
      if S.err ≠ 0 then some ⟨S.err, A.val, S.st, A.tr ++ S.tr⟩
      else
        match EnrollSteps env fuel 0 3 S.st with
        | none => none
        | some o =>
          if o.err ≠ 0 then some ⟨o.err, A.val, o.st, A.tr ++ S.tr ++ o.tr⟩
          else some ⟨0, A.val, o.st, A.tr ++ S.tr ++ o.tr ++ [.cb 4 3]⟩

/-- Number of wire commands with the given code and outgoing parameter in
a trace. -/
def nCmd (code param : Nat) (tr : List Event) : Nat :=
  tr.countP fun e => match e with
    | .cmd c p => c == code && p == param
    | _ => false

/-- Number of user callbacks with the given ui event (any mode). -/
def nCb (ui : Nat) (tr : List Event) : Nat :=
  tr.countP fun e => match e with
    | .cb _ u => u == ui
    | _ => false

/-- Number of wire commands of any kind in a trace. -/
def nAnyCmd (tr : List Event) : Nat :=
  tr.countP fun e => match e with
    | .cmd _ _ => true
    | _ => false

/-- The check-enrolled result `GT511_FindAvailable` observes for slot `i`
when started in state `st`: the scan performs exactly one transaction per
slot, so slot `i` is queried in state `⟨st.t + i, st.c⟩`. -/
def chkErr (env : Env) (st : St) (i : Nat) : Nat :=
  (GT511_CheckEnrolled env ⟨st.t + i, st.c⟩ i).err

/-- A syntactically valid response packet with the given code and
parameter (checksum filled in), used to build concrete environments. -/
def mkResp (code param : Nat) : Packet :=
  ⟨0x55, 0xAA, 1, param, code,
   Checksum (packetPrefixBytes ⟨0x55, 0xAA, 1, param, code, 0⟩)⟩

/-- A clean transaction whose response is an ACK with the given parameter. -/
def ackT (param : Nat) : Transport := ⟨true, 12, mkResp 0x30 param⟩

/-- A clean transaction whose response is a NACK with the given parameter. -/
def nackT (param : Nat) : Transport := ⟨true, 12, mkResp 0x31 param⟩

/-- Environment for the C5 witness: slot 0 is free, every command ACKs,
and the press queries report pressed (parameter 0) exactly while a press
wait is in progress (transaction indices 3 mod 6) and released
(parameter 1) during release waits. -/
def envC5 : Env :=
  ⟨fun n c _ =>
      if c = 0x21 then nackT 0x1004
      else if c = 0x26 then (if n % 6 = 3 then ackT 0 else ackT 1)
      else ackT 0,
   fun _ _ => false, fun _ => (0, [])⟩

/-- Agreement of two environments everywhere except on the outcomes of
illumination-off transactions (command 0x12 with parameter 0): same
timeout predicate, same raw receives, and the same transport behaviour
for every transaction that is not an LED-off command. -/
def EnvAgree (env env' : Env) : Prop :=
  env.timeout = env'.timeout ∧ env.recvRaw = env'.recvRaw ∧
  ∀ n c p, ¬(c = 0x12 ∧ p = 0) → env.transact n c p = env'.transact n c p

/-- Environment for the C4 witness: a fully successful identify run
(press, capture, identify ACKing id 7, release). -/
def envC4 : Env :=
  ⟨fun n _ _ => if n = 1 then ackT 0 else ackT 7,
   fun _ _ => false, fun _ => (0, [])⟩

/-- The event trace of the successful identify run over `envC4`. -/
def identTraceC4 : List Event :=
  [.cmd 0x12 1, .cb 1 0, .armTo 1, .cmd 0x26 0, .cmd 0x60 0, .cmd 0x51 0,
   .cb 1 1, .armTo 1, .cmd 0x26 0, .cmd 0x12 0, .cb 1 3]

/-- The full event trace of the successful enroll run over `envC5`:
slot scan, enroll start, three LED-on/press/capture/step/release/LED-off
iterations, and the final ACCEPT. -/
def enrollTraceC5 : List Event :=
  [.cmd 0x21 0, .cmd 0x22 0,
   .cmd 0x12 1, .cb 4 0, .armTo 4, .cmd 0x26 0, .cmd 0x60 1, .cmd 0x23 0,
   .cb 4 1, .armTo 4, .cmd 0x26 0, .cmd 0x12 0,
   .cmd 0x12 1, .cb 4 0, .armTo 4, .cmd 0x26 0, .cmd 0x60 1, .cmd 0x24 0,
   .cb 4 1, .armTo 4, .cmd 0x26 0, .cmd 0x12 0,
   .cmd 0x12 1, .cb 4 0, .armTo 4, .cmd 0x26 0, .cmd 0x60 1, .cmd 0x25 0,
   .cb 4 1, .armTo 4, .cmd 0x26 0, .cmd 0x12 0,
   .cb 4 3]

/-- Environment for the C2 witness: slots 0 and 1 report in use (ACK),
slot 2 reports not used (NACK 0x1004). -/
def envC2 : Env :=
  ⟨fun _ c p => if c = 0x21 ∧ p = 2 then nackT 0x1004 else ackT 0,
   fun _ _ => false, fun _ => (0, [])⟩

/-- Environment for the C3 witness: every transaction NACKs with parameter
0x2BAD, a value outside the `GT511_Error_t` enumeration. -/
def envC3 : Env :=
  ⟨fun _ _ _ => nackT 0x2BAD, fun _ _ => false, fun _ => (0, [])⟩

/-- Environment for the C6 witness: the timeout predicate is already
expired on every poll. -/
def envC6 : Env :=
  ⟨fun _ _ _ => ackT 0, fun _ _ => true, fun _ => (0, [])⟩

/-- Environment for the C8 witness: the info frame is 30 bytes of raw
garbage (`0, 1, ..., 29`) with wrong start bytes and a nonsense checksum,
which `GT511_Open` accepts purely on the byte count. -/
def envC8 : Env :=
  ⟨fun _ _ _ => ackT 0, fun _ _ => false, fun _ => (30, List.range 30)⟩

/-- Environment for the C9 witness: the sensor ACKs the press query with
parameter 7 (non-zero, i.e. no finger present). -/
def envC9 : Env :=
  ⟨fun _ _ _ => ackT 7, fun _ _ => false, fun _ => (0, [])⟩

/-- Environment for the C10 witness: press succeeds, capture succeeds,
identify ACKs with id 9, then the release wait times out on its first
poll. -/
def envC10 : Env :=
  ⟨fun n _ _ => if n = 1 then ackT 0 else ackT 9,
   fun n _ => n != 0, fun _ => (0, [])⟩

/-- Environment for the C7 witness: press and capture succeed, and the
identify command is answered with NACK 0x1008
(`GT511_ERR_IDENTIFY_FAILED`). -/
def envC7 : Env :=
  ⟨fun n _ _ => if n = 1 then ackT 0 else if n = 3 then nackT 0x1008 else ackT 9,
   fun _ _ => false, fun _ => (0, [])⟩

@[simp] theorem nCmd_nil (code param : Nat) : nCmd code param [] = 0 := rfl

@[simp] theorem nCmd_append (code param : Nat) (a b : List Event) :
    nCmd code param (a ++ b) = nCmd code param a + nCmd code param b :=
  List.countP_append ..

@[simp] theorem nCmd_cons (code param : Nat) (e : Event) (tr : List Event) :
    nCmd code param (e :: tr) =
      nCmd code param tr +
        (match e with | .cmd c p => if c == code && p == param then 1 else 0 | _ => 0) := by
  cases e <;> simp [nCmd, List.countP_cons]

@[simp] theorem nCb_nil (ui : Nat) : nCb ui [] = 0 := rfl

@[simp] theorem nCb_append (ui : Nat) (a b : List Event) :
    nCb ui (a ++ b) = nCb ui a + nCb ui b :=
  List.countP_append ..

@[simp] theorem nCb_cons (ui : Nat) (e : Event) (tr : List Event) :
    nCb ui (e :: tr) =
      nCb ui tr + (match e with | .cb _ u => if u == ui then 1 else 0 | _ => 0) := by
  cases e <;> simp [nCb, List.countP_cons]

@[simp] theorem nAnyCmd_nil : nAnyCmd [] = 0 := rfl

@[simp] theorem nAnyCmd_append (a b : List Event) :
    nAnyCmd (a ++ b) = nAnyCmd a + nAnyCmd b :=
  List.countP_append ..

@[simp] theorem nAnyCmd_cons (e : Event) (tr : List Event) :
    nAnyCmd (e :: tr) =
      nAnyCmd tr + (match e with | .cmd _ _ => 1 | _ => 0) := by
  cases e <;> simp [nAnyCmd, List.countP_cons]

@[simp] theorem IssueCommand_st (env : Env) (st : St) (c : Nat) (pp : Option Nat) :
    (IssueCommand env st c pp).st = ⟨st.t + 1, st.c⟩ := rfl

@[simp] theorem IssueCommand_tr (env : Env) (st : St) (c : Nat) (pp : Option Nat) :
    (IssueCommand env st c pp).tr = [.cmd c (pp.getD 0)] := rfl

@[simp] theorem CmosLed_st (env : Env) (st : St) (b : Bool) :
    (GT511_CmosLed env st b).st = ⟨st.t + 1, st.c⟩ := rfl

@[simp] theorem CmosLed_tr (env : Env) (st : St) (b : Bool) :
    (GT511_CmosLed env st b).tr = [.cmd 0x12 (if b then 1 else 0)] := rfl

@[simp] theorem IsPressFinger_st (env : Env) (st : St) :
    (GT511_IsPressFinger env st).st = ⟨st.t + 1, st.c⟩ := rfl

@[simp] theorem IsPressFinger_tr (env : Env) (st : St) :
    (GT511_IsPressFinger env st).tr = [.cmd 0x26 0] := rfl

@[simp] theorem CaptureFinger_st (env : Env) (st : St) (b : Bool) :
    (GT511_CaptureFinger env st b).st = ⟨st.t + 1, st.c⟩ := rfl

@[simp] theorem CaptureFinger_tr (env : Env) (st : St) (b : Bool) :
    (GT511_CaptureFinger env st b).tr = [.cmd 0x60 (if b then 1 else 0)] := rfl

@[simp] theorem Identify_st (env : Env) (st : St) :
    (GT511_Identify env st).st = ⟨st.t + 1, st.c⟩ := rfl

@[simp] theorem Identify_tr (env : Env) (st : St) :
    (GT511_Identify env st).tr = [.cmd 0x51 0] := rfl

@[simp] theorem Verify_st (env : Env) (st : St) (id : Nat) :
    (GT511_Verify env st id).st = ⟨st.t + 1, st.c⟩ := rfl

@[simp] theorem Verify_tr (env : Env) (st : St) (id : Nat) :
    (GT511_Verify env st id).tr = [.cmd 0x50 id] := rfl

@[simp] theorem EnrollStart_st (env : Env) (st : St) (id : Nat) :
    (GT511_EnrollStart env st id).st = ⟨st.t + 1, st.c⟩ := rfl

@[simp] theorem EnrollStart_tr (env : Env) (st : St) (id : Nat) :
    (GT511_EnrollStart env st id).tr = [.cmd 0x22 id] := rfl

@[simp] theorem Enroll1_st (env : Env) (st : St) :
    (GT511_Enroll1 env st).st = ⟨st.t + 1, st.c⟩ := rfl

@[simp] theorem Enroll1_tr (env : Env) (st : St) :
    (GT511_Enroll1 env st).tr = [.cmd 0x23 0] := rfl

@[simp] theorem Enroll2_st (env : Env) (st : St) :
    (GT511_Enroll2 env st).st = ⟨st.t + 1, st.c⟩ := rfl

@[simp] theorem Enroll2_tr (env : Env) (st : St) :
    (GT511_Enroll2 env st).tr = [.cmd 0x24 0] := rfl

@[simp] theorem Enroll3_st (env : Env) (st : St) :
    (GT511_Enroll3 env st).st = ⟨st.t + 1, st.c⟩ := rfl

@[simp] theorem Enroll3_tr (env : Env) (st : St) :
    (GT511_Enroll3 env st).tr = [.cmd 0x25 0] := rfl

@[simp] theorem CheckEnrolled_st (env : Env) (st : St) (id : Nat) :
    (GT511_CheckEnrolled env st id).st = ⟨st.t + 1, st.c⟩ := rfl

@[simp] theorem CheckEnrolled_tr (env : Env) (st : St) (id : Nat) :
    (GT511_CheckEnrolled env st id).tr = [.cmd 0x21 id] := rfl

/-- Event accounting for the press/release polling loop: it never turns
the LED on, never fires ACCEPT or REJECT, and on a successful exit it has
not turned the LED off either (the off command appears only on its
query-error path). -/
theorem WaitLoop_counts (env : Env) (mode : Nat) (target : Bool) :
    ∀ fuel st o, WaitLoop env mode target fuel st = some o →
      nCmd 0x12 1 o.tr = 0 ∧ nCb 3 o.tr = 0 ∧ nCb 4 o.tr = 0 ∧
      (o.err = 0 → nCmd 0x12 0 o.tr = 0) := by
  intro fuel
  induction fuel with
  | zero => intro st o h; simp [WaitLoop] at h
  | succ n ih =>
    intro st o h
    rw [WaitLoop] at h
    split at h
    · simp only [Option.some.injEq] at h
      subst h
      refine ⟨by simp, by simp, by simp, ?_⟩
      intro he; simp at he
    · dsimp only at h
      split at h
      · simp only [Option.some.injEq] at h
        subst h
        refine ⟨by simp, by simp, by simp, ?_⟩
        intro he
        simp only at he
        omega
      · split at h
        · simp only [Option.some.injEq] at h
          subst h
          exact ⟨by simp, by simp, by simp, fun _ => by simp⟩
        · split at h
          · exact absurd h (by simp)
          · rename_i o' heq
            simp only [Option.some.injEq] at h
            subst h
            obtain ⟨h1, h2, h3, h4⟩ := ih _ _ heq
            refine ⟨by simp [h1], by simp [h2], by simp [h3], ?_⟩
            intro he
            simp only at he
            simp [h4 he]

/-- The press wait has the same event accounting as its loop. -/
theorem WaitFingerPress_counts (env : Env) (mode fuel : Nat) (st : St) (o : Out)
    (h : WaitFingerPress env mode fuel st = some o) :
    nCmd 0x12 1 o.tr = 0 ∧ nCb 3 o.tr = 0 ∧ nCb 4 o.tr = 0 ∧
      (o.err = 0 → nCmd 0x12 0 o.tr = 0) := by
  rw [WaitFingerPress] at h
  split at h
  · exact absurd h (by simp)
  · rename_i o' heq
    simp only [Option.some.injEq] at h
    subst h
    obtain ⟨h1, h2, h3, h4⟩ := WaitLoop_counts env mode true fuel st o' heq
    exact ⟨by simp [h1], by simp [h2], by simp [h3], fun he => by
      simp only at he; simp [h4 he]⟩

/-- The release wait has the same event accounting as its loop. -/
theorem WaitFingerRelease_counts (env : Env) (mode fuel : Nat) (st : St) (o : Out)
    (h : WaitFingerRelease env mode fuel st = some o) :
    nCmd 0x12 1 o.tr = 0 ∧ nCb 3 o.tr = 0 ∧ nCb 4 o.tr = 0 ∧
      (o.err = 0 → nCmd 0x12 0 o.tr = 0) := by
  rw [WaitFingerRelease] at h
  split at h
  · exact absurd h (by simp)
  · rename_i o' heq
    simp only [Option.some.injEq] at h
    subst h
    obtain ⟨h1, h2, h3, h4⟩ := WaitLoop_counts env mode false fuel st o' heq
    exact ⟨by simp [h1], by simp [h2], by simp [h3], fun he => by
      simp only at he; simp [h4 he]⟩

/-- Event accounting for the slot scan: only check-enrolled commands are
issued, so no LED commands and no ACCEPT callbacks appear. -/
theorem FindAvailLoop_counts (env : Env) :
    ∀ rem i st,
      nCmd 0x12 1 (FindAvailLoop env i rem st).tr = 0 ∧
      nCmd 0x12 0 (FindAvailLoop env i rem st).tr = 0 ∧
      nCb 3 (FindAvailLoop env i rem st).tr = 0 := by
  intro rem
  induction rem with
  | zero => intro i st; simp [FindAvailLoop]
  | succ n ih =>
    intro i st
    rw [FindAvailLoop]
    split
    · simp
    · split
      · simp
      · obtain ⟨h1, h2, h3⟩ := ih (i + 1) ⟨st.t + 1, st.c⟩
        exact ⟨by simp [h1], by simp [h2], by simp [h3]⟩


/-- If every remaining slot reports in-use (`GT511_ERR_NONE`), the scan
loop visits them all and returns `GT511_ERR_INVALID_POS`. -/
theorem FindAvailLoop_all_used (env : Env) (st : St) :
    ∀ rem i, (∀ j, j < rem → chkErr env st (i + j) = 0) →
      FindAvailLoop env i rem ⟨st.t + i, st.c⟩ =
        ⟨0x1003, none, ⟨st.t + (i + rem), st.c⟩,
         (List.range' i rem).map fun j => Event.cmd 0x21 j⟩ := by
  intro rem
  induction rem with
  | zero => intro i h; simp [FindAvailLoop]
  | succ n ih =>
    intro i h
    have h0 : chkErr env st i = 0 := by simpa using h 0 (Nat.succ_pos n)
    have hx : (GT511_CheckEnrolled env ⟨st.t + i, st.c⟩ i).err = 0 := h0
    rw [FindAvailLoop]
    rw [hx]
    have hrec := ih (i + 1) (fun j hj => by
      have := h (j + 1) (Nat.succ_lt_succ hj)
      simpa [Nat.add_assoc, Nat.add_comm 1 j] using this)
    simp only [CheckEnrolled_st, CheckEnrolled_tr]
    have hst : (⟨st.t + i + 1, st.c⟩ : St) = ⟨st.t + (i + 1), st.c⟩ := by
      simp [Nat.add_assoc]
    rw [if_neg (by decide), if_neg (by simp), hst, hrec]
    simp [List.range'_succ, Nat.add_assoc, Nat.add_comm 1 n]

/-- If the slots before offset `k` report in-use and slot `i + k` reports
anything else, the scan loop stops at `i + k`: on `GT511_ERR_IS_NOT_USED`
it returns success with that index, otherwise it propagates the error. -/
theorem FindAvailLoop_stops (env : Env) (st : St) :
    ∀ k i rem, k < rem → (∀ j, j < k → chkErr env st (i + j) = 0) →
      chkErr env st (i + k) ≠ 0 →
      FindAvailLoop env i rem ⟨st.t + i, st.c⟩ =
        ⟨if chkErr env st (i + k) = 0x1004 then 0 else chkErr env st (i + k),
         if chkErr env st (i + k) = 0x1004 then some (i + k) else none,
         ⟨st.t + (i + k) + 1, st.c⟩,
         (List.range' i (k + 1)).map fun j => Event.cmd 0x21 j⟩ := by
  intro k
  induction k with
  | zero =>
    intro i rem hk h0 hne
    obtain ⟨m, rfl⟩ := Nat.exists_eq_succ_of_ne_zero (Nat.pos_iff_ne_zero.mp hk)
    rw [FindAvailLoop]
    rw [show (GT511_CheckEnrolled env ⟨st.t + i, st.c⟩ i).err = chkErr env st i from rfl]
    simp only [Nat.add_zero] at hne ⊢
    by_cases hc : chkErr env st i = 0x1004
    · rw [if_pos hc]
      simp [hc, List.range'_succ]
    · rw [if_neg hc, if_pos hne]
      simp [hc, List.range'_succ]
  | succ n ih =>
    intro i rem hk h0 hne
    obtain ⟨m, rfl⟩ := Nat.exists_eq_succ_of_ne_zero
      (Nat.pos_iff_ne_zero.mp (Nat.lt_of_le_of_lt (Nat.zero_le _) hk))
    have hz : chkErr env st i = 0 := by simpa using h0 0 (Nat.succ_pos n)
    rw [FindAvailLoop]
    rw [show (GT511_CheckEnrolled env ⟨st.t + i, st.c⟩ i).err = chkErr env st i from rfl, hz]
    have hrec := ih (i + 1) m (Nat.lt_of_succ_lt_succ hk)
      (fun j hj => by
        have := h0 (j + 1) (Nat.succ_lt_succ hj)
        simpa [Nat.add_assoc, Nat.add_comm 1 j] using this)
      (by simpa [Nat.add_assoc, Nat.add_comm 1 n] using hne)
    simp only [CheckEnrolled_st, CheckEnrolled_tr]
    have hst : (⟨st.t + i + 1, st.c⟩ : St) = ⟨st.t + (i + 1), st.c⟩ := by
      simp [Nat.add_assoc]
    rw [if_neg (by decide), if_neg (by simp), hst, hrec]
    have harith : i + 1 + n = i + (n + 1) := by omega
    simp [harith, List.range'_succ]




end GT511

namespace GT511

/-- C1 as stated is false: `IsValidResponse` also requires the code field
to be one of the two response codes, and the command code 0x01
(`GT511_CMD_OPEN`) is neither, so validating the frame built for it
fails even though checksum, start bytes, and id are all in order. -/
theorem C1_counterexample : IsValidResponse (IssueCommandPacket 0x01 0) = false := by
  decide

/-- C1 (amended): for every command code and 32-bit parameter, the frame
built by `IssueCommand`'s packet-construction step passes the checksum,
start-byte, and id checks of `IsValidResponse`; the full validation
succeeds if and only if the stored 16-bit command code is one of the two
response codes ACK (0x30) or NACK (0x31). -/
theorem C1_build_validate (command parameter : Nat) :
    (Checksum (packetPrefixBytes (IssueCommandPacket command parameter)) =
        (IssueCommandPacket command parameter).checksum ∧
      (IssueCommandPacket command parameter).start1 = 0x55 ∧
      (IssueCommandPacket command parameter).start2 = 0xAA ∧
      (IssueCommandPacket command parameter).id = 1) ∧
    (IsValidResponse (IssueCommandPacket command parameter) = true ↔
      command % 65536 = 0x30 ∨ command % 65536 = 0x31) := by
  refine ⟨⟨rfl, rfl, rfl, rfl⟩, ?_⟩
  simp [IsValidResponse, IssueCommandPacket, packetPrefixBytes]

/-- C2: `GT511_FindAvailable` (non-NULL pointer) scans slots 0..19 in
strictly ascending order (the trace is exactly the check-enrolled commands
for `0, 1, ..., k`): if every slot reports `GT511_ERR_NONE` it returns
`GT511_ERR_INVALID_POS` after all 20 checks; the first slot reporting
`GT511_ERR_IS_NOT_USED` is stored and `GT511_ERR_NONE` returned; any other
non-zero first result aborts the scan and is returned as-is. -/
theorem C2_FindAvailable (env : Env) (st : St) :
    ((∀ i, i < 20 → chkErr env st i = 0) →
      GT511_FindAvailable env st true =
        ⟨0x1003, none, ⟨st.t + 20, st.c⟩,
         (List.range' 0 20).map fun j => Event.cmd 0x21 j⟩) ∧
    (∀ k, k < 20 → (∀ j, j < k → chkErr env st j = 0) → chkErr env st k = 0x1004 →
      GT511_FindAvailable env st true =
        ⟨0, some k, ⟨st.t + k + 1, st.c⟩,
         (List.range' 0 (k + 1)).map fun j => Event.cmd 0x21 j⟩) ∧
    (∀ k, k < 20 → (∀ j, j < k → chkErr env st j = 0) →
      chkErr env st k ≠ 0 → chkErr env st k ≠ 0x1004 →
      GT511_FindAvailable env st true =
        ⟨chkErr env st k, none, ⟨st.t + k + 1, st.c⟩,
         (List.range' 0 (k + 1)).map fun j => Event.cmd 0x21 j⟩) := by
  refine ⟨?_, ?_, ?_⟩
  · intro hall
    have h := FindAvailLoop_all_used env st 20 0 (fun j hj => by simpa using hall j hj)
    rw [GT511_FindAvailable, if_pos rfl]
    simpa using h
  · intro k hk hpre hfree
    have h := FindAvailLoop_stops env st k 0 20 hk
      (fun j hj => by simpa using hpre j hj) (by rw [show (0 : Nat) + k = k from Nat.zero_add k, hfree]; decide)
    rw [GT511_FindAvailable, if_pos rfl]
    simp only [Nat.zero_add] at h
    rw [show (⟨st.t + 0, st.c⟩ : St) = st by simp] at h
    rw [h]
    simp [hfree]
  · intro k hk hpre hne hnf
    have h := FindAvailLoop_stops env st k 0 20 hk
      (fun j hj => by simpa using hpre j hj) (by simpa using hne)
    rw [GT511_FindAvailable, if_pos rfl]
    simp only [Nat.zero_add] at h
    rw [show (⟨st.t + 0, st.c⟩ : St) = st by simp] at h
    rw [h]
    simp [hnf]


/-- Witness for C2 at a concrete environment with slots
`{used, used, free, used, ...}`: the scan stops at slot 2 with success. -/
theorem C2_FindAvailable_witness :
    GT511_FindAvailable envC2 ⟨0, 0⟩ true =
      ⟨0, some 2, ⟨0 + 2 + 1, 0⟩,
       (List.range' 0 (2 + 1)).map fun j => Event.cmd 0x21 j⟩ :=
  (C2_FindAvailable envC2 ⟨0, 0⟩).2.1 2 (by decide)
    (fun j hj => by interval_cases j <;> decide) (by decide)

/-- C3: when the transaction's response is a syntactically valid NACK
frame, `IssueCommand` returns the frame's 32-bit parameter field as the
error code, numerically unmodified (whether or not it matches a named
`GT511_Error_t` enumerator), and performs no write-back through
`pParameter`. -/
theorem C3_nack_passthrough (env : Env) (st : St) (command : Nat) (pp : Option Nat)
    (hs : (env.transact st.t command (pp.getD 0)).sendOk = true)
    (hr : (env.transact st.t command (pp.getD 0)).recvCount = 12)
    (hv : IsValidResponse (env.transact st.t command (pp.getD 0)).resp = true)
    (hn : (env.transact st.t command (pp.getD 0)).resp.command = 0x31) :
    IssueCommand env st command pp =
      ⟨(env.transact st.t command (pp.getD 0)).resp.parameter, none,
       ⟨st.t + 1, st.c⟩, [.cmd command (pp.getD 0)]⟩ := by
  rw [IssueCommand]
  simp [issueErr, issueWb, hs, hr, hv, hn]


/-- Witness for C3: a NACK carrying the unenumerated value 0x2BAD is
passed through verbatim with no write-back. -/
theorem C3_nack_passthrough_witness :
    IssueCommand envC3 ⟨0, 0⟩ 0x50 (some 5) =
      ⟨0x2BAD, none, ⟨1, 0⟩, [.cmd 0x50 5]⟩ :=
  C3_nack_passthrough envC3 ⟨0, 0⟩ 0x50 (some 5)
    (by decide) (by decide) (by decide) (by decide)

/-- C6: if `GT511_CheckTimeout` reports expired on the very first poll,
`WaitFingerPress` fires exactly one TIMEOUT notification and returns
`GT511_ERR_OTHER_ERROR` (0xFFFF), having issued no wire command at all —
so no is-finger-pressed query and no illumination command. -/
theorem C6_timeout_first_poll (env : Env) (st : St) (mode fuel : Nat)
    (hf : fuel ≠ 0) (ht : env.timeout st.c mode = true) :
    WaitFingerPress env mode fuel st =
      some ⟨0xFFFF, ⟨st.t, st.c + 1⟩, [.cb mode 0, .armTo mode, .cb mode 2]⟩ ∧
    nCb 2 [Event.cb mode 0, Event.armTo mode, Event.cb mode 2] = 1 ∧
    nAnyCmd [Event.cb mode 0, Event.armTo mode, Event.cb mode 2] = 0 := by
  obtain ⟨n, rfl⟩ := Nat.exists_eq_succ_of_ne_zero hf
  refine ⟨?_, by simp, by simp⟩
  rw [WaitFingerPress, WaitLoop, if_pos ht]
  rfl


/-- Witness for C6 at a concrete always-expired environment. -/
theorem C6_timeout_first_poll_witness :
    WaitFingerPress envC6 1 3 ⟨0, 0⟩ =
      some ⟨0xFFFF, ⟨0, 1⟩, [.cb 1 0, .armTo 1, .cb 1 2]⟩ ∧
    nCb 2 [Event.cb 1 0, Event.armTo 1, Event.cb 1 2] = 1 ∧
    nAnyCmd [Event.cb 1 0, Event.armTo 1, Event.cb 1 2] = 0 :=
  C6_timeout_first_poll envC6 ⟨0, 0⟩ 1 3 (by decide) rfl

/-- C8: after an ACKed open command with info requested, the device-info
frame is judged solely by its received byte count: any count other than 30
yields `GT511_ERR_OTHER_ERROR`, and on exactly 30 bytes the payload
fields (firmware version at offset 4, iso area size at offset 8, 16
serial bytes from offset 12) are copied into the caller's structure with
no checksum, start-byte, or id validation — the byte contents are fully
arbitrary here. -/
theorem C8_open_info_count_only (env : Env) (st : St)
    (hs : (env.transact st.t 1 1).sendOk = true)
    (hr : (env.transact st.t 1 1).recvCount = 12)
    (hv : IsValidResponse (env.transact st.t 1 1).resp = true)
    (ha : (env.transact st.t 1 1).resp.command = 0x30) :
    ((env.recvRaw (st.t + 1)).1 ≠ 30 →
      GT511_Open env st true = ⟨0xFFFF, none, ⟨st.t + 1, st.c⟩, [.cmd 1 1]⟩) ∧
    ((env.recvRaw (st.t + 1)).1 = 30 →
      GT511_Open env st true =
        ⟨0, some ⟨le32 (env.recvRaw (st.t + 1)).2 4, le32 (env.recvRaw (st.t + 1)).2 8,
           ((env.recvRaw (st.t + 1)).2.drop 12).take 16⟩,
         ⟨st.t + 1, st.c⟩, [.cmd 1 1]⟩) := by
  have hx : IssueCommand env st 0x01 (some (if true then 1 else 0)) =
      ⟨0, some (env.transact st.t 1 1).resp.parameter, ⟨st.t + 1, st.c⟩, [.cmd 1 1]⟩ := by
    rw [IssueCommand]
    simp [issueErr, issueWb, hs, hr, hv, ha]
  constructor
  · intro hc
    rw [GT511_Open, hx]
    simp [hc]
  · intro hc
    rw [GT511_Open, hx]
    simp [hc]


/-- Witness for C8: the garbage 30-byte frame is accepted and decoded. -/
theorem C8_open_info_count_only_witness :
    ((envC8.recvRaw 1).1 ≠ 30 →
      GT511_Open envC8 ⟨0, 0⟩ true = ⟨0xFFFF, none, ⟨1, 0⟩, [.cmd 1 1]⟩) ∧
    ((envC8.recvRaw 1).1 = 30 →
      GT511_Open envC8 ⟨0, 0⟩ true =
        ⟨0, some ⟨le32 (envC8.recvRaw 1).2 4, le32 (envC8.recvRaw 1).2 8,
           ((envC8.recvRaw 1).2.drop 12).take 16⟩,
         ⟨1, 0⟩, [.cmd 1 1]⟩) :=
  C8_open_info_count_only envC8 ⟨0, 0⟩ (by decide) (by decide) (by decide) (by decide)

/-- C9: on a successful (valid, ACKed) is-finger-pressed transaction,
`GT511_IsPressFinger` stores the logical negation of the response
parameter: the flag is `true` exactly when the parameter is 0, and
`false` for every non-zero parameter. -/
theorem C9_pressed_negation (env : Env) (st : St)
    (hs : (env.transact st.t 0x26 0).sendOk = true)
    (hr : (env.transact st.t 0x26 0).recvCount = 12)
    (hv : IsValidResponse (env.transact st.t 0x26 0).resp = true)
    (ha : (env.transact st.t 0x26 0).resp.command = 0x30) :
    GT511_IsPressFinger env st =
      ⟨0, (env.transact st.t 0x26 0).resp.parameter == 0,
       ⟨st.t + 1, st.c⟩, [.cmd 0x26 0]⟩ := by
  rw [GT511_IsPressFinger, IssueCommand]
  simp [issueErr, issueWb, hs, hr, hv, ha]


/-- Witness for C9: a non-zero response parameter yields a `false` flag. -/
theorem C9_pressed_negation_witness :
    GT511_IsPressFinger envC9 ⟨0, 0⟩ = ⟨0, false, ⟨1, 0⟩, [.cmd 0x26 0]⟩ :=
  C9_pressed_negation envC9 ⟨0, 0⟩ (by decide) (by decide) (by decide) (by decide)

/-- C10: `GT511_RunIdentify` writes the matched id through `pId` right
after the identify command succeeds and before waiting for release; if
the release wait then fails, the function returns that error while `pId`
already holds the matched id. -/
theorem C10_pid_written_before_release (env : Env) (st : St) (fuel : Nat) (w r : Out)
    (h1 : (GT511_CmosLed env st true).err = 0)
    (h2 : WaitFingerPress env 1 fuel ⟨st.t + 1, st.c⟩ = some w)
    (h2e : w.err = 0)
    (h3 : (GT511_CaptureFinger env w.st false).err = 0)
    (h4 : (GT511_Identify env ⟨w.st.t + 1, w.st.c⟩).err = 0)
    (h5 : WaitFingerRelease env 1 fuel ⟨w.st.t + 1 + 1, w.st.c⟩ = some r)
    (h5e : r.err ≠ 0) :
    GT511_RunIdentify env fuel st true =
      some ⟨r.err, some (GT511_Identify env ⟨w.st.t + 1, w.st.c⟩).val,
        ⟨r.st.t + 1, r.st.c⟩,
        [.cmd 0x12 1] ++ w.tr ++ [.cmd 0x60 0] ++ [.cmd 0x51 0] ++ r.tr ++ [.cmd 0x12 0]⟩ := by
  rw [GT511_RunIdentify]
  rw [h1]
  simp only [CmosLed_st, CmosLed_tr]
  rw [if_neg (by simp)]
  rw [h2]
  simp only
  rw [if_neg (by simp [h2e])]
  rw [if_neg (by simp [h3])]
  simp only [CaptureFinger_st, CaptureFinger_tr, Identify_st, Identify_tr]
  rw [if_neg (by simp [h4])]
  rw [h5]
  simp only
  rw [if_pos h5e]
  simp [h2e]


/-- Witness for C10: the matched id 9 is in `pId` even though the run
returns the release-wait's timeout error. -/
theorem C10_pid_written_before_release_witness :
    GT511_RunIdentify envC10 5 ⟨0, 0⟩ true =
      some ⟨0xFFFF, some 9, ⟨5, 2⟩,
        [.cmd 0x12 1, .cb 1 0, .armTo 1, .cmd 0x26 0, .cmd 0x60 0, .cmd 0x51 0,
         .cb 1 1, .armTo 1, .cb 1 2, .cmd 0x12 0]⟩ :=
  C10_pid_written_before_release envC10 ⟨0, 0⟩ 5
    ⟨0, ⟨2, 1⟩, [.cb 1 0, .armTo 1, .cmd 0x26 0]⟩
    ⟨0xFFFF, ⟨4, 2⟩, [.cb 1 1, .armTo 1, .cb 1 2]⟩
    (by decide) (by decide) (by decide) (by decide) (by decide) (by decide) (by decide)

/-- C7: if, after a successful press and capture, the identify command is
answered by a valid NACK carrying hardware error code `X`,
`GT511_RunIdentify` returns `X`, fires exactly one REJECT notification
(in mode IDENTIFY), and issues the illumination-off command before
returning (the trace ends with LED-off followed only by the REJECT
callback). -/
theorem C7_identify_nack (env : Env) (st : St) (fuel X : Nat) (w : Out)
    (h1 : (GT511_CmosLed env st true).err = 0)
    (h2 : WaitFingerPress env 1 fuel ⟨st.t + 1, st.c⟩ = some w)
    (h2e : w.err = 0)
    (h3 : (GT511_CaptureFinger env w.st false).err = 0)
    (hs : (env.transact (w.st.t + 1) 0x51 0).sendOk = true)
    (hr : (env.transact (w.st.t + 1) 0x51 0).recvCount = 12)
    (hv : IsValidResponse (env.transact (w.st.t + 1) 0x51 0).resp = true)
    (hn : (env.transact (w.st.t + 1) 0x51 0).resp.command = 0x31)
    (hX : (env.transact (w.st.t + 1) 0x51 0).resp.parameter = X)
    (hXne : X ≠ 0) :
    GT511_RunIdentify env fuel st true =
      some ⟨X, none, ⟨w.st.t + 1 + 1 + 1, w.st.c⟩,
        [.cmd 0x12 1] ++ w.tr ++ [.cmd 0x60 0, .cmd 0x51 0, .cmd 0x12 0, .cb 1 4]⟩ ∧
    nCb 4 ([.cmd 0x12 1] ++ w.tr ++ [.cmd 0x60 0, .cmd 0x51 0, .cmd 0x12 0, .cb 1 4]) = 1 := by
  have hI : GT511_Identify env ⟨w.st.t + 1, w.st.c⟩ =
      ⟨X, 0, ⟨w.st.t + 1 + 1, w.st.c⟩, [.cmd 0x51 0]⟩ := by
    rw [GT511_Identify, IssueCommand]
    simp [issueErr, issueWb, hs, hr, hv, hn, hX]
  constructor
  · rw [GT511_RunIdentify]
    rw [h1]
    simp only [CmosLed_st, CmosLed_tr]
    rw [if_neg (by simp)]
    rw [h2]
    simp only
    rw [if_neg (by simp [h2e])]
    rw [if_neg (by simp [h3])]
    simp only [CaptureFinger_st, CaptureFinger_tr]
    rw [hI]
    simp only
    rw [if_pos (by simpa using hXne)]
    simp
  · have hw := (WaitFingerPress_counts env 1 fuel ⟨st.t + 1, st.c⟩ w h2).2.2.1
    simp [hw]


/-- Witness for C7: the hardware code 0x1008 is returned, one REJECT is
fired, and the LED-off command precedes it at the end of the trace. -/
theorem C7_identify_nack_witness :
    GT511_RunIdentify envC7 5 ⟨0, 0⟩ true =
      some ⟨0x1008, none, ⟨5, 1⟩,
        [.cmd 0x12 1, .cb 1 0, .armTo 1, .cmd 0x26 0,
         .cmd 0x60 0, .cmd 0x51 0, .cmd 0x12 0, .cb 1 4]⟩ ∧
    nCb 4 ([Event.cmd 0x12 1] ++ [Event.cb 1 0, .armTo 1, .cmd 0x26 0] ++
      [Event.cmd 0x60 0, .cmd 0x51 0, .cmd 0x12 0, .cb 1 4]) = 1 :=
  C7_identify_nack envC7 ⟨0, 0⟩ 5 0x1008
    ⟨0, ⟨2, 1⟩, [.cb 1 0, .armTo 1, .cmd 0x26 0]⟩
    (by decide) (by decide) (by decide) (by decide) (by decide) (by decide)
    (by decide) (by decide) (by decide) (by decide)

end GT511

namespace GT511

@[simp] theorem EnrollStepCmd_st (env : Env) (st : St) (step : Nat) :
    (EnrollStepCmd env st step).st = ⟨st.t + 1, st.c⟩ := by
  rw [EnrollStepCmd]; split_ifs <;> rfl

@[simp] theorem EnrollStepCmd_nOn (env : Env) (st : St) (step : Nat) :
    nCmd 0x12 1 (EnrollStepCmd env st step).tr = 0 := by
  rw [EnrollStepCmd]; split_ifs <;> simp

@[simp] theorem EnrollStepCmd_nOff (env : Env) (st : St) (step : Nat) :
    nCmd 0x12 0 (EnrollStepCmd env st step).tr = 0 := by
  rw [EnrollStepCmd]; split_ifs <;> simp

@[simp] theorem EnrollStepCmd_nAcc (env : Env) (st : St) (step : Nat) :
    nCb 3 (EnrollStepCmd env st step).tr = 0 := by
  rw [EnrollStepCmd]; split_ifs <;> simp

@[simp] theorem EnrollStepCmd_nRej (env : Env) (st : St) (step : Nat) :
    nCb 4 (EnrollStepCmd env st step).tr = 0 := by
  rw [EnrollStepCmd]; split_ifs <;> simp

/-- A scan that returns success has stored a slot index. -/
theorem FindAvailLoop_isSome (env : Env) :
    ∀ rem i st, (FindAvailLoop env i rem st).err = 0 →
      (FindAvailLoop env i rem st).val.isSome = true := by
  intro rem
  induction rem with
  | zero => intro i st h; simp [FindAvailLoop] at h
  | succ n ih =>
    intro i st h
    rw [FindAvailLoop] at h ⊢
    by_cases h1 : (GT511_CheckEnrolled env st i).err = 0x1004
    · rw [if_pos h1] at h ⊢; simp
    · rw [if_neg h1] at h ⊢
      by_cases h2 : (GT511_CheckEnrolled env st i).err ≠ 0
      · rw [if_pos h2] at h
        exact absurd (by simpa using h) h2
      · rw [if_neg h2] at h ⊢
        exact ih (i + 1) _ (by simpa using h)

/-- Event accounting for a fully successful run of the enroll loop: no
ACCEPT notifications, and exactly one LED-on and one LED-off command per
step performed. -/
theorem EnrollSteps_success_counts (env : Env) (fuel : Nat) :
    ∀ rem step st o, EnrollSteps env fuel step rem st = some o → o.err = 0 →
      nCb 3 o.tr = 0 ∧ nCmd 0x12 1 o.tr = rem ∧ nCmd 0x12 0 o.tr = rem := by
  intro rem
  induction rem with
  | zero =>
    intro step st o h ho
    simp only [EnrollSteps, Option.some.injEq] at h
    subst h
    simp
  | succ n ih =>
    intro step st o h ho
    rw [EnrollSteps] at h
    dsimp only at h
    split at h
    · rename_i hc
      simp only [Option.some.injEq] at h
      subst h
      simp only [Out.err] at ho
      exact absurd ho hc
    · split at h
      · exact absurd h (by simp)
      · rename_i w heq
        split at h
        · rename_i hc
          simp only [Option.some.injEq] at h
          subst h
          simp only [Out.err] at ho
          exact absurd ho hc
        · rename_i hwe
          split at h
          · rename_i hc
            simp only [Option.some.injEq] at h
            subst h
            simp only [Out.err] at ho
            exact absurd ho hc
          · split at h
            · rename_i hc
              simp only [Option.some.injEq] at h
              subst h
              simp only [Out.err] at ho
              exact absurd ho hc
            · split at h
              · exact absurd h (by simp)
              · rename_i r heqr
                split at h
                · rename_i hc
                  simp only [Option.some.injEq] at h
                  subst h
                  simp only [Out.err] at ho
                  exact absurd ho hc
                · rename_i hre
                  split at h
                  · exact absurd h (by simp)
                  · rename_i o' heqo
                    simp only [Option.some.injEq] at h
                    subst h
                    simp only [Out.err] at ho
                    obtain ⟨a1, a2, a3⟩ := ih _ _ _ heqo ho
                    obtain ⟨p1, p2, p3, p4⟩ := WaitFingerPress_counts env 4 fuel _ w heq
                    obtain ⟨q1, q2, q3, q4⟩ := WaitFingerRelease_counts env 4 fuel _ r heqr
                    have hw0 : w.err = 0 := by simpa using hwe
                    have hr0 : r.err = 0 := by simpa using hre
                    refine ⟨?_, ?_, ?_⟩ <;>
                      simp [a1, a2, a3, p1, p2, p3, p4 hw0, q1, q2, q3, q4 hr0]

/-- C5: when `GT511_RunEnroll` (non-NULL pointer) returns
`GT511_ERR_NONE` — which happens exactly when slot allocation,
enroll-start, and all three press/capture/step/release iterations
succeed — the stored `*pId` is the slot chosen by `GT511_FindAvailable`
(some slot was indeed stored), exactly one ACCEPT notification is fired,
and the illumination-on and illumination-off commands are each issued
exactly 3 times. -/
theorem C5_enroll_success (env : Env) (fuel : Nat) (st : St) (o : OutV (Option Nat))
    (h : GT511_RunEnroll env fuel st true = some o) (ho : o.err = 0) :
    o.val = (GT511_FindAvailable env st true).val ∧
    o.val.isSome = true ∧
    nCb 3 o.tr = 1 ∧ nCmd 0x12 1 o.tr = 3 ∧ nCmd 0x12 0 o.tr = 3 := by
  rw [GT511_RunEnroll] at h
  rw [if_neg (by simp)] at h
  dsimp only at h
  split at h
  · rename_i hc
    simp only [Option.some.injEq] at h
    subst h
    simp only [OutV.err] at ho
    exact absurd ho hc
  · rename_i hA
    split at h
    · rename_i hc
      simp only [Option.some.injEq] at h
      subst h
      simp only [OutV.err] at ho
      exact absurd ho hc
    · split at h
      · exact absurd h (by simp)
      · rename_i o3 heq
        split at h
        · rename_i hc
          simp only [Option.some.injEq] at h
          subst h
          simp only [OutV.err] at ho
          exact absurd ho hc
        · rename_i h3e
          simp only [Option.some.injEq] at h
          subst h
          have h30 : o3.err = 0 := by simpa using h3e
          obtain ⟨a1, a2, a3⟩ := EnrollSteps_success_counts env fuel 3 0 _ o3 heq h30
          have hFA : GT511_FindAvailable env st true = FindAvailLoop env 0 20 st := by
            rw [GT511_FindAvailable, if_pos rfl]
          obtain ⟨f1, f2, f3⟩ := FindAvailLoop_counts env 20 0 st
          have hA0 : (GT511_FindAvailable env st true).err = 0 := by simpa using hA
          have hsome : (GT511_FindAvailable env st true).val.isSome = true := by
            rw [hFA] at hA0 ⊢
            exact FindAvailLoop_isSome env 20 0 st hA0
          exact ⟨rfl, hsome, by simp [hFA, f3, a1], by simp [hFA, f1, a2],
            by simp [hFA, f2, a3]⟩

/-- Witness for C5: a fully successful enroll over `envC5` (slot 0 free,
every step succeeding) stores slot 0, fires one ACCEPT, and toggles the
LED on and off 3 times each. -/
theorem C5_enroll_success_witness :
    (some 0 : Option Nat) = (GT511_FindAvailable envC5 ⟨0, 0⟩ true).val ∧
    (some 0 : Option Nat).isSome = true ∧
    nCb 3 enrollTraceC5 = 1 ∧ nCmd 0x12 1 enrollTraceC5 = 3 ∧
    nCmd 0x12 0 enrollTraceC5 = 3 :=
  C5_enroll_success envC5 5 ⟨0, 0⟩ ⟨0, some 0, ⟨20, 6⟩, enrollTraceC5⟩
    (by decide) (by decide)

end GT511

namespace GT511

/-- A transaction that is not an LED-off command behaves identically in
environments that agree outside LED-off outcomes. -/
theorem IssueCommand_congr {env env' : Env} (hag : EnvAgree env env')
    (st : St) (c : Nat) (pp : Option Nat) (hc : ¬(c = 0x12 ∧ pp.getD 0 = 0)) :
    IssueCommand env st c pp = IssueCommand env' st c pp := by
  rw [IssueCommand, IssueCommand, hag.2.2 st.t c (pp.getD 0) hc]

theorem CmosLedOn_congr {env env' : Env} (hag : EnvAgree env env') (st : St) :
    GT511_CmosLed env st true = GT511_CmosLed env' st true := by
  rw [GT511_CmosLed, GT511_CmosLed, IssueCommand_congr hag st 0x12 _ (by simp)]

theorem IsPressFinger_congr {env env' : Env} (hag : EnvAgree env env') (st : St) :
    GT511_IsPressFinger env st = GT511_IsPressFinger env' st := by
  rw [GT511_IsPressFinger, GT511_IsPressFinger,
    IssueCommand_congr hag st 0x26 _ (by simp)]

theorem CaptureFinger_congr {env env' : Env} (hag : EnvAgree env env') (st : St)
    (hq : Bool) : GT511_CaptureFinger env st hq = GT511_CaptureFinger env' st hq := by
  rw [GT511_CaptureFinger, GT511_CaptureFinger,
    IssueCommand_congr hag st 0x60 _ (by simp)]

theorem Identify_congr {env env' : Env} (hag : EnvAgree env env') (st : St) :
    GT511_Identify env st = GT511_Identify env' st := by
  rw [GT511_Identify, GT511_Identify, IssueCommand_congr hag st 0x51 _ (by simp)]

theorem Verify_congr {env env' : Env} (hag : EnvAgree env env') (st : St) (id : Nat) :
    GT511_Verify env st id = GT511_Verify env' st id := by
  rw [GT511_Verify, GT511_Verify, IssueCommand_congr hag st 0x50 _ (by simp)]

theorem EnrollStart_congr {env env' : Env} (hag : EnvAgree env env') (st : St)
    (id : Nat) : GT511_EnrollStart env st id = GT511_EnrollStart env' st id := by
  rw [GT511_EnrollStart, GT511_EnrollStart,
    IssueCommand_congr hag st 0x22 _ (by simp)]

theorem CheckEnrolled_congr {env env' : Env} (hag : EnvAgree env env') (st : St)
    (id : Nat) : GT511_CheckEnrolled env st id = GT511_CheckEnrolled env' st id := by
  rw [GT511_CheckEnrolled, GT511_CheckEnrolled,
    IssueCommand_congr hag st 0x21 _ (by simp)]

theorem EnrollStepCmd_congr {env env' : Env} (hag : EnvAgree env env') (st : St)
    (step : Nat) : EnrollStepCmd env st step = EnrollStepCmd env' st step := by
  rw [EnrollStepCmd, EnrollStepCmd]
  split_ifs
  · rw [GT511_Enroll1, GT511_Enroll1, IssueCommand_congr hag st 0x23 _ (by simp)]
  · rw [GT511_Enroll2, GT511_Enroll2, IssueCommand_congr hag st 0x24 _ (by simp)]
  · rw [GT511_Enroll3, GT511_Enroll3, IssueCommand_congr hag st 0x25 _ (by simp)]

/-- The wait loops are insensitive to the outcomes of LED-off commands:
the only LED-off they issue is on the query-error path, and its result is
discarded. -/
theorem WaitLoop_congr {env env' : Env} (hag : EnvAgree env env')
    (mode : Nat) (target : Bool) :
    ∀ fuel st, WaitLoop env mode target fuel st = WaitLoop env' mode target fuel st := by
  intro fuel
  induction fuel with
  | zero => intro st; rfl
  | succ n ih =>
    intro st
    rw [WaitLoop, WaitLoop, hag.1, IsPressFinger_congr hag]
    simp only [CmosLed_st, CmosLed_tr, ih]

theorem WaitFingerPress_congr {env env' : Env} (hag : EnvAgree env env')
    (mode fuel : Nat) (st : St) :
    WaitFingerPress env mode fuel st = WaitFingerPress env' mode fuel st := by
  rw [WaitFingerPress, WaitFingerPress, WaitLoop_congr hag]

theorem WaitFingerRelease_congr {env env' : Env} (hag : EnvAgree env env')
    (mode fuel : Nat) (st : St) :
    WaitFingerRelease env mode fuel st = WaitFingerRelease env' mode fuel st := by
  rw [WaitFingerRelease, WaitFingerRelease, WaitLoop_congr hag]

theorem FindAvailLoop_congr {env env' : Env} (hag : EnvAgree env env') :
    ∀ rem i st, FindAvailLoop env i rem st = FindAvailLoop env' i rem st := by
  intro rem
  induction rem with
  | zero => intro i st; rfl
  | succ n ih =>
    intro i st
    rw [FindAvailLoop, FindAvailLoop, CheckEnrolled_congr hag]
    simp only [ih]

theorem FindAvailable_congr {env env' : Env} (hag : EnvAgree env env') (st : St)
    (pg : Bool) : GT511_FindAvailable env st pg = GT511_FindAvailable env' st pg := by
  rw [GT511_FindAvailable, GT511_FindAvailable, FindAvailLoop_congr hag]

theorem EnrollSteps_congr {env env' : Env} (hag : EnvAgree env env') (fuel : Nat) :
    ∀ rem step st, EnrollSteps env fuel step rem st = EnrollSteps env' fuel step rem st := by
  intro rem
  induction rem with
  | zero => intro step st; rfl
  | succ n ih =>
    intro step st
    rw [EnrollSteps, EnrollSteps, CmosLedOn_congr hag, WaitFingerPress_congr hag]
    simp only [CmosLed_st, CmosLed_tr, CaptureFinger_congr hag, EnrollStepCmd_congr hag,
      WaitFingerRelease_congr hag, ih]

/-- `GT511_RunIdentify` is insensitive to LED-off outcomes. -/
theorem RunIdentify_congr {env env' : Env} (hag : EnvAgree env env')
    (fuel : Nat) (st : St) (pg : Bool) :
    GT511_RunIdentify env fuel st pg = GT511_RunIdentify env' fuel st pg := by
  rw [GT511_RunIdentify, GT511_RunIdentify, CmosLedOn_congr hag, WaitFingerPress_congr hag]
  simp only [CmosLed_st, CmosLed_tr, CaptureFinger_congr hag, Identify_congr hag,
    WaitFingerRelease_congr hag]

/-- `GT511_RunVerify` is insensitive to LED-off outcomes. -/
theorem RunVerify_congr {env env' : Env} (hag : EnvAgree env env')
    (fuel : Nat) (st : St) (uid : Nat) :
    GT511_RunVerify env fuel st uid = GT511_RunVerify env' fuel st uid := by
  rw [GT511_RunVerify, GT511_RunVerify, CmosLedOn_congr hag, WaitFingerPress_congr hag]
  simp only [CmosLed_st, CmosLed_tr, CaptureFinger_congr hag, Verify_congr hag,
    WaitFingerRelease_congr hag]

/-- `GT511_RunEnroll` is insensitive to LED-off outcomes. -/
theorem RunEnroll_congr {env env' : Env} (hag : EnvAgree env env')
    (fuel : Nat) (st : St) (pg : Bool) :
    GT511_RunEnroll env fuel st pg = GT511_RunEnroll env' fuel st pg := by
  rw [GT511_RunEnroll, GT511_RunEnroll, FindAvailable_congr hag]
  simp only [EnrollStart_congr hag, EnrollSteps_congr hag]

/-- On every return of the enroll loop, at least as many LED-off as
LED-on commands have been issued. -/
theorem EnrollSteps_led_le (env : Env) (fuel : Nat) :
    ∀ rem step st o, EnrollSteps env fuel step rem st = some o →
      nCmd 0x12 1 o.tr ≤ nCmd 0x12 0 o.tr := by
  intro rem
  induction rem with
  | zero =>
    intro step st o h
    simp only [EnrollSteps, Option.some.injEq] at h
    subst h
    simp
  | succ n ih =>
    intro step st o h
    rw [EnrollSteps] at h
    dsimp only at h
    split at h
    · simp only [Option.some.injEq] at h
      subst h
      simp
    · split at h
      · exact absurd h (by simp)
      · rename_i w heq
        obtain ⟨p1, _, _, p4⟩ := WaitFingerPress_counts env 4 fuel _ w heq
        split at h
        · simp only [Option.some.injEq] at h
          subst h
          simp [p1] <;> omega
        · split at h
          · simp only [Option.some.injEq] at h
            subst h
            simp [p1] <;> omega
          · split at h
            · simp only [Option.some.injEq] at h
              subst h
              simp [p1] <;> omega
            · split at h
              · exact absurd h (by simp)
              · rename_i r heqr
                obtain ⟨q1, _, _, q4⟩ := WaitFingerRelease_counts env 4 fuel _ r heqr
                split at h
                · simp only [Option.some.injEq] at h
                  subst h
                  simp [p1, q1] <;> omega
                · split at h
                  · exact absurd h (by simp)
                  · rename_i o' heqo
                    have a := ih _ _ _ heqo
                    simp only [Option.some.injEq] at h
                    subst h
                    simp [p1, q1] <;> omega

/-- On every return of `GT511_RunIdentify`, at least as many LED-off as
LED-on commands have been issued. -/
theorem RunIdentify_led_le (env : Env) (fuel : Nat) (st : St) (pg : Bool) :
    ∀ o, GT511_RunIdentify env fuel st pg = some o →
      nCmd 0x12 1 o.tr ≤ nCmd 0x12 0 o.tr := by
  intro o h
  rw [GT511_RunIdentify] at h
  dsimp only at h
  split at h
  · simp only [Option.some.injEq] at h
    subst h
    simp
  · split at h
    · exact absurd h (by simp)
    · rename_i w heq
      obtain ⟨p1, _, _, p4⟩ := WaitFingerPress_counts env 1 fuel _ w heq
      split at h
      · simp only [Option.some.injEq] at h
        subst h
        simp [p1] <;> omega
      · split at h
        · simp only [Option.some.injEq] at h
          subst h
          simp [p1] <;> omega
        · split at h
          · simp only [Option.some.injEq] at h
            subst h
            simp [p1] <;> omega
          · split at h
            · exact absurd h (by simp)
            · rename_i r heqr
              obtain ⟨q1, _, _, q4⟩ := WaitFingerRelease_counts env 1 fuel _ r heqr
              split at h
              · simp only [Option.some.injEq] at h
                subst h
                simp [p1, q1] <;> omega
              · simp only [Option.some.injEq] at h
                subst h
                simp [p1, q1] <;> omega

/-- On every return of `GT511_RunVerify`, at least as many LED-off as
LED-on commands have been issued. -/
theorem RunVerify_led_le (env : Env) (fuel : Nat) (st : St) (uid : Nat) :
    ∀ o, GT511_RunVerify env fuel st uid = some o →
      nCmd 0x12 1 o.tr ≤ nCmd 0x12 0 o.tr := by
  intro o h
  rw [GT511_RunVerify] at h
  dsimp only at h
  split at h
  · simp only [Option.some.injEq] at h
    subst h
    simp
  · split at h
    · exact absurd h (by simp)
    · rename_i w heq
      obtain ⟨p1, _, _, p4⟩ := WaitFingerPress_counts env 2 fuel _ w heq
      split at h
      · simp only [Option.some.injEq] at h
        subst h
        simp [p1] <;> omega
      · split at h
        · simp only [Option.some.injEq] at h
          subst h
          simp [p1] <;> omega
        · split at h
          · simp only [Option.some.injEq] at h
            subst h
            simp [p1] <;> omega
          · split at h
            · exact absurd h (by simp)
            · rename_i r heqr
              obtain ⟨q1, _, _, q4⟩ := WaitFingerRelease_counts env 2 fuel _ r heqr
              split at h
              · simp only [Option.some.injEq] at h
                subst h
                simp [p1, q1] <;> omega
              · simp only [Option.some.injEq] at h
                subst h
                simp [p1, q1] <;> omega

/-- On every return of `GT511_RunEnroll`, at least as many LED-off as
LED-on commands have been issued. -/
theorem RunEnroll_led_le (env : Env) (fuel : Nat) (st : St) (pg : Bool) :
    ∀ o, GT511_RunEnroll env fuel st pg = some o →
      nCmd 0x12 1 o.tr ≤ nCmd 0x12 0 o.tr := by
  intro o h
  rw [GT511_RunEnroll] at h
  split at h
  · simp only [Option.some.injEq] at h
    subst h
    simp
  · dsimp only at h
    have hFA : GT511_FindAvailable env st true = FindAvailLoop env 0 20 st := by
      rw [GT511_FindAvailable, if_pos rfl]
    obtain ⟨f1, f2, _⟩ := FindAvailLoop_counts env 20 0 st
    split at h
    · simp only [Option.some.injEq] at h
      subst h
      simp [hFA, f1, f2]
    · split at h
      · simp only [Option.some.injEq] at h
        subst h
        simp [hFA, f1, f2]
      · split at h
        · exact absurd h (by simp)
        · rename_i o3 heq
          have a := EnrollSteps_led_le env fuel 3 0 _ o3 heq
          split at h
          · simp only [Option.some.injEq] at h
            subst h
            simp [hFA, f1, f2] <;> omega
          · simp only [Option.some.injEq] at h
            subst h
            simp [hFA, f1, f2] <;> omega

/-- C4: in `GT511_RunIdentify`, `GT511_RunVerify`, and `GT511_RunEnroll`,
whenever the illumination-on command has been issued, an illumination-off
command is also issued before the function returns: on every return the
trace holds at least as many LED-off as LED-on commands.  Moreover the
result of the illumination-off calls is never checked or propagated: the
entire outcome of each workflow (return code, stored id, counters, and
trace) is unchanged under any change to the environment's answers to
LED-off transactions (`EnvAgree`). -/
theorem C4_illumination_balanced (fuel : Nat) (env env' : Env) (st : St)
    (pg : Bool) (uid : Nat) (hag : EnvAgree env env') :
    (GT511_RunIdentify env fuel st pg = GT511_RunIdentify env' fuel st pg ∧
     GT511_RunVerify env fuel st uid = GT511_RunVerify env' fuel st uid ∧
     GT511_RunEnroll env fuel st pg = GT511_RunEnroll env' fuel st pg) ∧
    ((∀ o, GT511_RunIdentify env fuel st pg = some o →
        nCmd 0x12 1 o.tr ≤ nCmd 0x12 0 o.tr) ∧
     (∀ o, GT511_RunVerify env fuel st uid = some o →
        nCmd 0x12 1 o.tr ≤ nCmd 0x12 0 o.tr) ∧
     (∀ o, GT511_RunEnroll env fuel st pg = some o →
        nCmd 0x12 1 o.tr ≤ nCmd 0x12 0 o.tr)) :=
  ⟨⟨RunIdentify_congr hag fuel st pg, RunVerify_congr hag fuel st uid,
    RunEnroll_congr hag fuel st pg⟩,
   RunIdentify_led_le env fuel st pg, RunVerify_led_le env fuel st uid,
   RunEnroll_led_le env fuel st pg⟩

/-- Witness for C4 at a concrete environment (agreeing with itself) on a
successful identify run: the noninterference equation holds and the run's
trace has one LED-on and one LED-off. -/
theorem C4_illumination_balanced_witness :
    EnvAgree envC4 envC4 ∧
    GT511_RunIdentify envC4 10 ⟨0, 0⟩ true = GT511_RunIdentify envC4 10 ⟨0, 0⟩ true ∧
    nCmd 0x12 1 identTraceC4 ≤ nCmd 0x12 0 identTraceC4 := by
  have hag : EnvAgree envC4 envC4 := ⟨rfl, rfl, fun _ _ _ _ => rfl⟩
  refine ⟨hag, (C4_illumination_balanced 10 envC4 envC4 ⟨0, 0⟩ true 3 hag).1.1, ?_⟩
  exact (C4_illumination_balanced 10 envC4 envC4 ⟨0, 0⟩ true 3 hag).2.1
    ⟨0, some 7, ⟨6, 2⟩, identTraceC4⟩ (by decide)

end GT511
